import Mathlib

/-!
Verification of the SmokePing RRD-to-JSON API core

Shallow embedding of `src/api/smokeping_api.py`: the `parse_rrd_lastupdate`
text parser and the `get_target_data` fetch wrapper.

Modelling conventions:
* Python strings are modelled as `List Char` (the `.data` of a Lean `String`);
  `str.strip`, `str.split(sep)`, `str.split()` are re-implemented structurally.
* Python floats are idealised as rationals `ℚ`.  `float(tok)` is modelled for
  finite decimal / scientific literals; the non-finite literals `inf`,
  `infinity` (which the Python code would accept and, for the loss token,
  crash on at `int()`) are outside the model and parse to `none`.
* `round(x, n)` is Python's round-half-to-even, modelled exactly on `ℚ`.
* `statistics.median` is sort-then-index, exactly as CPython implements it.
* The success dict carries `datetime.fromtimestamp(ts, tz=utc).isoformat()`;
  that rendering is a deterministic injective function of the integer unix
  time, so the `timestamp` field holds the unix time itself (`Option ℤ`,
  `none` on the error dicts, which carry no timestamp key).
-/

/-- Characters stripped by Python `str.strip()` (ASCII range). -/
def isPySpace (c : Char) : Bool :=
  c.toNat = 32 || (9 ≤ c.toNat && c.toNat ≤ 13)

/-- Python `str.strip()`. -/
def trimList (cs : List Char) : List Char :=
  ((cs.dropWhile isPySpace).reverse.dropWhile isPySpace).reverse

/-- Split at every character satisfying `p`, keeping empty pieces:
Python `str.split(sep)` semantics for a one-character separator. -/
def splitOnP (p : Char → Bool) : List Char → List (List Char)
  | [] => [[]]
  | x :: xs =>
    let r := splitOnP p xs
    if p x then [] :: r
    else
      match r with
      | [] => [[x]]
      | y :: ys => (x :: y) :: ys

/-- Python `str.split(c)` for a single-character separator. -/
def splitOnChar (c : Char) (cs : List Char) : List (List Char) :=
  splitOnP (fun x => x = c) cs

/-- Python `str.split()` (no argument): split on whitespace runs, drop empties. -/
def pySplitWs (cs : List Char) : List (List Char) :=
  (splitOnP isPySpace cs).filter (fun t => !t.isEmpty)

/-- Numeric value of a digit string. -/
def natOfDigits (cs : List Char) : ℕ :=
  cs.foldl (fun a c => a * 10 + (c.toNat - 48)) 0

/-- Strip one optional leading sign, returning the sign as `±1`. -/
def splitSign : List Char → ℤ × List Char
  | '+' :: cs => (1, cs)
  | '-' :: cs => (-1, cs)
  | cs => (1, cs)

/-- Python `int(s)` on an already-stripped token: optional sign then digits. -/
def parseIntChars (cs : List Char) : Option ℤ :=
  let s := splitSign cs
  if s.2.isEmpty then none
  else if s.2.all Char.isDigit then some (s.1 * (natOfDigits s.2 : ℤ))
  else none

/-- `10 ^ z` over `ℚ` for an integer exponent. -/
def pow10Z (z : ℤ) : ℚ :=
  if 0 ≤ z then ((10 : ℚ) ^ z.toNat) else ((10 : ℚ) ^ (-z).toNat)⁻¹

/-- Python `float(tok)` for finite decimal / scientific literals:
optional sign, digits with optional fractional part, optional exponent.
Non-numeric tokens (and the non-finite literals, see module docstring)
yield `none`, matching the `ValueError` path. -/
def parseFloatChars (cs : List Char) : Option ℚ :=
  let s := splitSign cs
  let ip := s.2.span Char.isDigit
  let fr :=
    match ip.2 with
    | '.' :: rest => rest.span Char.isDigit
    | _ => ([], ip.2)
  if ip.1.isEmpty && fr.1.isEmpty then none
  else
    let mant : ℚ := ((s.1 * (natOfDigits (ip.1 ++ fr.1) : ℤ) : ℤ) : ℚ) / (10 : ℚ) ^ fr.1.length
    match fr.2 with
    | [] => some mant
    | e :: rest =>
      if e = 'e' || e = 'E' then
        let es := splitSign rest
        let ed := es.2.span Char.isDigit
        if ed.1.isEmpty || !ed.2.isEmpty then none
        else some (mant * pow10Z (es.1 * (natOfDigits ed.1 : ℤ)))
      else none

/-- Python `int(f)` on a finite float: truncation toward zero. -/
def truncQ (q : ℚ) : ℤ :=
  if 0 ≤ q then ⌊q⌋ else -⌊-q⌋

/-- Round-half-to-even to an integer (Python `round`'s tie-breaking). -/
def roundHalfEvenZ (q : ℚ) : ℤ :=
  let n := ⌊q⌋
  let r := q - (n : ℚ)
  if r < 1 / 2 then n
  else if 1 / 2 < r then n + 1
  else if n % 2 = 0 then n else n + 1

/-- Python `round(q, d)` idealised on `ℚ`. -/
def pyRound (q : ℚ) (d : ℕ) : ℚ :=
  ((roundHalfEvenZ (q * (10 : ℚ) ^ d) : ℤ) : ℚ) / (10 : ℚ) ^ d

/-- CPython `statistics.median`: sort ascending; odd length picks the middle
element, even length averages the two central elements.  (Only used under a
non-emptiness guard, mirroring the `if ping_values:` guard.) -/
def pyMedian (l : List ℚ) : ℚ :=
  let s := List.insertionSort (fun a b => a ≤ b) l
  let n := l.length
  if n % 2 = 1 then s.getD (n / 2) 0
  else (s.getD (n / 2 - 1) 0 + s.getD (n / 2) 0) / 2

/-- The `v.lower() in ("u", "nan", "-nan")` sentinel test. -/
def isNoReplySentinel (v : List Char) : Bool :=
  let lv := v.map Char.toLower
  lv = ['u'] || lv = ['n', 'a', 'n'] || lv = ['-', 'n', 'a', 'n']

/-- One iteration of the ping-collection loop: sentinel tokens and
unparseable tokens are skipped, parsed values are kept only if `> 0`. -/
def parsePing (v : List Char) : Option ℚ :=
  if isNoReplySentinel v then none
  else
    match parseFloatChars v with
    | none => none
    | some val => if 0 < val then some val else none

/-- The ping-collection loop over the middle tokens (`values[1:-1]`). -/
def extractPings (toks : List (List Char)) : List ℚ :=
  toks.filterMap parsePing

/-- The loss block: `int(float(values[-1]))`, percentage against the
configured total, rounded to 1 decimal, capped at 100. -/
def computeLossPct (totalPings : ℕ) (tok : List Char) : Option ℚ :=
  match parseFloatChars tok with
  | none => none
  | some f =>
    let lossCount := truncQ f
    let lp := pyRound ((lossCount : ℚ) / (totalPings : ℚ) * 100) 1
    some (if lp > 100 then 100 else lp)

/-- Result of one parse / fetch: the Python result dict.  `timestamp` holds
the unix time whose UTC ISO-8601 rendering the code attaches (absent on the
error dicts); `error` is the optional error string. -/
structure RRDData where
  latency_ms : Option ℚ
  loss_pct : Option ℚ
  timestamp : Option ℤ
  error : Option String
deriving DecidableEq

/-- An error dict: both numeric fields `None`, no timestamp key. -/
def mkErr (msg : String) : RRDData :=
  ⟨none, none, none, some msg⟩

/-- The reverse scan for the last stripped, non-empty, colon-bearing line. -/
def findDataLine (lines : List (List Char)) : Option (List Char) :=
  (lines.reverse.map trimList).find? (fun l => !l.isEmpty && l.contains ':')

/-- `output.strip().split("\n")`. -/
def pyLines (cs : List Char) : List (List Char) :=
  splitOnChar '\n' (trimList cs)

/-- `parse_rrd_lastupdate`, over the character list of the output. -/
def parseCore (totalPings : ℕ) (out : List Char) : RRDData :=
  let lines := pyLines out
  if lines.length < 2 then mkErr "Invalid RRD output"
  else
    match findDataLine lines with
    | none => mkErr "No data line found"
    | some dataLine =>
      let parts := splitOnChar ':' dataLine
      if parts.length ≠ 2 then mkErr "Malformed data line"
      else
        match parseIntChars (trimList (parts.getD 0 [])) with
        | none => mkErr "Invalid timestamp"
        | some timestamp =>
          let values := pySplitWs (trimList (parts.getD 1 []))
          if values.length < 2 then mkErr "Not enough values"
          else
            let pingValues := extractPings ((values.drop 1).dropLast)
            let latency : Option ℚ :=
              if pingValues.isEmpty then none
              else some (pyRound (pyMedian pingValues * 1000) 2)
            let loss : Option ℚ :=
              if 0 < totalPings then computeLossPct totalPings (values.getLastD [])
              else none
            ⟨latency, loss, some timestamp, none⟩

/-- `parse_rrd_lastupdate(output)` with the configured `TOTAL_PINGS`. -/
def parse_rrd_lastupdate (totalPings : ℕ) (output : String) : RRDData :=
  parseCore totalPings output.data

/-- The list of valid probe values the parser extracts from its input: the
same line-selection, field and token splitting as `parseCore`, ending with
the ping-collection loop over the middle tokens.  `none` when the parser
aborts before reaching that loop. -/
def validProbeValues (output : String) : Option (List ℚ) :=
  let lines := pyLines output.data
  if lines.length < 2 then none
  else
    match findDataLine lines with
    | none => none
    | some dataLine =>
      let parts := splitOnChar ':' dataLine
      if parts.length ≠ 2 then none
      else
        match parseIntChars (trimList (parts.getD 0 [])) with
        | none => none
        | some _ =>
          let values := pySplitWs (trimList (parts.getD 1 []))
          if values.length < 2 then none
          else some (extractPings ((values.drop 1).dropLast))

/-- Outcome of the `subprocess.run(["rrdtool", "lastupdate", path], ...)`
call: normal completion with exit code / stdout / stderr, or one of the
exceptions the code catches (`TimeoutExpired`, `FileNotFoundError` for a
missing binary, anything else). -/
inductive ToolOutcome where
  | ran (exitCode : ℤ) (stdout : String) (stderr : String)
  | timedOut
  | binMissing
  | failed
deriving DecidableEq

/-- The ambient system, abstracted: `os.path.realpath` (canonicalisation
through `..` segments and symlinks), `os.path.exists`, and the external
tool invocation.  Paths are character lists. -/
structure SysEnv where
  realpath : List Char → List Char
  pathExists : List Char → Bool
  runTool : List Char → ToolOutcome

/-- `os.path.join` for one relative component (POSIX semantics). -/
def osJoin (a b : List Char) : List Char :=
  if b.head? = some '/' then b
  else if a.isEmpty then b
  else if a.getLast? = some '/' then a ++ b
  else a ++ '/' :: b

/-- The path-traversal guard of `get_target_data`:
`not real_path.startswith(base_path + os.sep) and real_path != base_path`. -/
def rejectsPath (realPath basePath : List Char) : Bool :=
  !((basePath ++ ['/']).isPrefixOf realPath) && realPath != basePath

/-- `get_target_data`, also reporting whether the subprocess was invoked
(second component; consulting `SysEnv.runTool` counts as invoking it). -/
def get_target_data_aux (env : SysEnv) (totalPings : ℕ)
    (dataDir rrdPath : List Char) : RRDData × Bool :=
  let fullPath := osJoin dataDir rrdPath
  let realPath := env.realpath fullPath
  let basePath := env.realpath dataDir
  if rejectsPath realPath basePath then
    (mkErr "Invalid path", false)
  else if !(env.pathExists realPath) then
    (mkErr (String.mk ("RRD file not found: ".data ++ rrdPath)), false)
  else
    match env.runTool realPath with
    | .ran exitCode stdout _stderr =>
      if exitCode ≠ 0 then (mkErr "rrdtool error reading file", true)
      else (parseCore totalPings stdout.data, true)
    | .timedOut => (mkErr "rrdtool timeout", true)
    | .binMissing => (mkErr "rrdtool not installed", true)
    | .failed => (mkErr "Unexpected error reading RRD file", true)

/-- `get_target_data(target_name, rrd_path)` (the target name is only used
for logging in the source and does not influence the result). -/
def get_target_data (env : SysEnv) (totalPings : ℕ)
    (dataDir rrdPath : List Char) : RRDData :=
  (get_target_data_aux env totalPings dataDir rrdPath).1

/-- The error messages of `get_target_data`'s own failure classes, in
source order: path rejection, missing file, non-zero exit, timeout,
missing binary, unexpected failure. -/
def fetchErrorMessages (rrdPath : List Char) : List String :=
  ["Invalid path",
   String.mk ("RRD file not found: ".data ++ rrdPath),
   "rrdtool error reading file",
   "rrdtool timeout",
   "rrdtool not installed",
   "Unexpected error reading RRD file"]

/-- Erase the captured stderr from a tool outcome. -/
def scrubStderr : ToolOutcome → ToolOutcome
  | .ran exitCode stdout _ => .ran exitCode stdout ""
  | o => o

/-! ### Helper lemmas -/

theorem le_roundHalfEvenZ (z : ℤ) (q : ℚ) (h : (z : ℚ) ≤ q) : z ≤ roundHalfEvenZ q := by
  simp only [roundHalfEvenZ]
  have hz : z ≤ ⌊q⌋ := Int.le_floor.mpr h
  repeat' split <;> omega

theorem pyRound_nonneg (q : ℚ) (d : ℕ) (h : 0 ≤ q) : 0 ≤ pyRound q d := by
  unfold pyRound
  apply div_nonneg _ (by positivity)
  have h10 : (0 : ℚ) ≤ q * (10 : ℚ) ^ d := mul_nonneg h (by positivity)
  exact_mod_cast le_roundHalfEvenZ 0 _ (by exact_mod_cast h10)

theorem hundred_le_pyRound1 (x : ℚ) (h : (100 : ℚ) ≤ x) : (100 : ℚ) ≤ pyRound x 1 := by
  unfold pyRound
  have h1 : ((1000 : ℤ) : ℚ) ≤ x * (10 : ℚ) ^ (1 : ℕ) := by push_cast; nlinarith
  have h2 : (1000 : ℤ) ≤ roundHalfEvenZ (x * (10 : ℚ) ^ (1 : ℕ)) := le_roundHalfEvenZ _ _ h1
  have h3 : ((1000 : ℤ) : ℚ) ≤ ((roundHalfEvenZ (x * (10 : ℚ) ^ (1 : ℕ)) : ℤ) : ℚ) := by
    exact_mod_cast h2
  rw [le_div_iff₀ (by norm_num)]
  push_cast at h3 ⊢
  linarith

theorem computeLossPct_le (tp : ℕ) (tok : List Char) (q : ℚ)
    (h : computeLossPct tp tok = some q) : q ≤ 100 := by
  unfold computeLossPct at h
  cases hf : parseFloatChars tok with
  | none => rw [hf] at h; cases h
  | some f =>
    rw [hf] at h
    simp only [Option.some.injEq] at h
    subst h
    split
    · exact le_refl _
    · exact not_lt.mp (by assumption)

theorem computeLossPct_nonneg (tp : ℕ) (tok : List Char) (q f : ℚ)
    (h : computeLossPct tp tok = some q) (hf : parseFloatChars tok = some f)
    (hf0 : 0 ≤ f) : 0 ≤ q := by
  unfold computeLossPct at h
  rw [hf] at h
  simp only [Option.some.injEq] at h
  subst h
  have hlc : (0 : ℤ) ≤ truncQ f := by
    unfold truncQ
    rw [if_pos hf0]
    exact Int.floor_nonneg.mpr hf0
  have hx : (0 : ℚ) ≤ ((truncQ f : ℤ) : ℚ) / (tp : ℚ) * 100 := by
    apply mul_nonneg _ (by norm_num)
    exact div_nonneg (by exact_mod_cast hlc) (by positivity)
  have hlp := pyRound_nonneg _ 1 hx
  split
  · norm_num
  · exact hlp

theorem computeLossPct_overflow (tp : ℕ) (tok : List Char) (q f : ℚ)
    (htp : 0 < tp) (h : computeLossPct tp tok = some q)
    (hf : parseFloatChars tok = some f) (hover : (tp : ℤ) < truncQ f) : q = 100 := by
  unfold computeLossPct at h
  rw [hf] at h
  simp only [Option.some.injEq] at h
  subst h
  have htpq : (0 : ℚ) < (tp : ℚ) := by exact_mod_cast htp
  have hlc : ((tp : ℚ)) + 1 ≤ ((truncQ f : ℤ) : ℚ) := by
    exact_mod_cast (by omega : (tp : ℤ) + 1 ≤ truncQ f)
  have hx : (100 : ℚ) ≤ ((truncQ f : ℤ) : ℚ) / (tp : ℚ) * 100 := by
    have h2 : (1 : ℚ) ≤ ((truncQ f : ℤ) : ℚ) / (tp : ℚ) := by
      rw [le_div_iff₀ htpq]
      linarith
    nlinarith
  have hlp := hundred_le_pyRound1 _ hx
  split
  · rfl
  · exact le_antisymm (not_lt.mp (by assumption)) hlp

theorem parse_loss_shape (tp : ℕ) (out : String) :
    (parse_rrd_lastupdate tp out).loss_pct = none ∨
    ∃ tok, (parse_rrd_lastupdate tp out).loss_pct = computeLossPct tp tok := by
  unfold parse_rrd_lastupdate parseCore
  by_cases h1 : (pyLines out.data).length < 2
  · simp [h1, mkErr]
  · simp only [if_neg h1]
    cases h2 : findDataLine (pyLines out.data) with
    | none => simp [mkErr]
    | some dl =>
      by_cases h3 : (splitOnChar ':' dl).length ≠ 2
      · simp [h3, mkErr]
      · simp only [if_neg h3, if_pos (not_not.mp h3)]
        cases h4 : parseIntChars (trimList ((splitOnChar ':' dl).getD 0 [])) with
        | none => simp [mkErr]
        | some ts =>
          split
          · simp [mkErr]
          · by_cases h5 : (pySplitWs (trimList ((splitOnChar ':' dl).getD 1 []))).length < 2
            · rw [if_pos h5]; simp [mkErr]
            · rw [if_neg h5]
              by_cases h6 : 0 < tp
              · rw [if_pos h6]
                right
                exact ⟨_, rfl⟩
              · rw [if_neg h6]
                left
                rfl

theorem parseCore_error_cases (tp : ℕ) (cs : List Char) :
    (parseCore tp cs).error = none ∨
    (parseCore tp cs).error ∈ [some "Invalid RRD output", some "No data line found",
      some "Malformed data line", some "Invalid timestamp", some "Not enough values"] := by
  unfold parseCore
  by_cases h1 : (pyLines cs).length < 2
  · simp [h1, mkErr]
  · simp only [if_neg h1]
    cases h2 : findDataLine (pyLines cs) with
    | none => simp [mkErr]
    | some dl =>
      by_cases h3 : (splitOnChar ':' dl).length ≠ 2
      · simp [h3, mkErr]
      · simp only [if_neg h3, if_pos (not_not.mp h3)]
        cases h4 : parseIntChars (trimList ((splitOnChar ':' dl).getD 0 [])) with
        | none => simp [mkErr]
        | some ts =>
          split
          · simp [mkErr]
          · by_cases h5 : (pySplitWs (trimList ((splitOnChar ':' dl)[1]?.getD []))).length < 2 <;>
              simp [h5, mkErr]

theorem string_mk_ne_of_head (l₁ l₂ : List Char) (h : l₁.head? ≠ l₂.head?) :
    String.mk l₁ ≠ String.mk l₂ := by
  intro he
  injection he with he
  exact h (congrArg List.head? he)

theorem notFoundMsg_ne_invalidPath (rp : List Char) :
    String.mk ("RRD file not found: ".data ++ rp) ≠ "Invalid path" :=
  string_mk_ne_of_head _ _ (by
    rw [show ("RRD file not found: ".data ++ rp).head? = some 'R' from rfl]
    decide)

/-! ### Claims -/

/-- C1: whenever the parser reaches its latency computation, the latency it
returns is the statistical median of the extracted valid probe values,
multiplied by 1000 and rounded to 2 decimal places (null when no valid
probe value remains); and for an even-length list the median is the
arithmetic mean of the two central values after ascending sort. -/
theorem latency_is_rounded_median (tp : ℕ) (out : String) (vs : List ℚ)
    (h : validProbeValues out = some vs) :
    ((parse_rrd_lastupdate tp out).latency_ms =
      if vs.isEmpty then none else some (pyRound (pyMedian vs * 1000) 2)) ∧
    (∀ l : List ℚ, l.length % 2 = 0 →
      pyMedian l =
        ((List.insertionSort (fun a b => a ≤ b) l).getD (l.length / 2 - 1) 0 +
          (List.insertionSort (fun a b => a ≤ b) l).getD (l.length / 2) 0) / 2) := by
  constructor
  · unfold parse_rrd_lastupdate parseCore
    unfold validProbeValues at h
    by_cases h1 : (pyLines out.data).length < 2
    · simp [h1] at h
    · simp only [if_neg h1] at h ⊢
      cases h2 : findDataLine (pyLines out.data) with
      | none => rw [h2] at h; cases h
      | some dl =>
        rw [h2] at h
        dsimp only at h ⊢
        by_cases h3 : (splitOnChar ':' dl).length ≠ 2
        · rw [if_pos h3] at h; cases h
        · rw [if_neg h3] at h ⊢
          cases h4 : parseIntChars (trimList ((splitOnChar ':' dl).getD 0 [])) with
          | none => rw [h4] at h; cases h
          | some ts =>
            rw [h4] at h
            dsimp only at h ⊢
            by_cases h5 : (pySplitWs (trimList ((splitOnChar ':' dl).getD 1 []))).length < 2
            · rw [if_pos h5] at h; cases h
            · rw [if_neg h5] at h ⊢
              simp only [Option.some.injEq] at h
              subst h
              rfl
  · intro l hl
    unfold pyMedian
    rw [if_neg (by omega)]

unseal Rat.mul Rat.inv Rat.add Rat.sub in
/-- Witness for C1: the five-probe scenario input, whose extracted probe
values are those of the data line, and a two-element even-length median. -/
theorem latency_is_rounded_median_witness :
    ((parse_rrd_lastupdate 20
        "uptime p1 p2 p3 p4 p5 loss\n\n1735840200: 123456 1.23e-02 1.45e-02 1.50e-02 1.35e-02 1.40e-02 0").latency_ms =
      if ([123/10000, 29/2000, 3/200, 27/2000, 7/500] : List ℚ).isEmpty then none
      else some (pyRound (pyMedian [123/10000, 29/2000, 3/200, 27/2000, 7/500] * 1000) 2)) ∧
    pyMedian [(1 : ℚ), 2] =
      ((List.insertionSort (fun a b => a ≤ b) [(1 : ℚ), 2]).getD ([(1 : ℚ), 2].length / 2 - 1) 0 +
        (List.insertionSort (fun a b => a ≤ b) [(1 : ℚ), 2]).getD ([(1 : ℚ), 2].length / 2) 0) / 2 :=
  ⟨(latency_is_rounded_median 20
      "uptime p1 p2 p3 p4 p5 loss\n\n1735840200: 123456 1.23e-02 1.45e-02 1.50e-02 1.35e-02 1.40e-02 0"
      [123/10000, 29/2000, 3/200, 27/2000, 7/500] (by decide)).1,
   (latency_is_rounded_median 20
      "uptime p1 p2 p3 p4 p5 loss\n\n1735840200: 123456 1.23e-02 1.45e-02 1.50e-02 1.35e-02 1.40e-02 0"
      [123/10000, 29/2000, 3/200, 27/2000, 7/500] (by decide)).2 [(1 : ℚ), 2] (by decide)⟩

unseal Rat.mul Rat.inv Rat.add Rat.sub in
/-- C2 (counterexample): a data line whose last token is "-1" parses as a
number, yet the returned loss percentage is -5, outside [0, 100]. -/
theorem loss_pct_negative_counterexample :
    parseFloatChars "-1".data = some (-1) ∧
    (parse_rrd_lastupdate 20 "uptime p1 loss\n\n100: 1 2.0e-02 -1").loss_pct = some (-5) ∧
    ((-5 : ℚ) < 0) :=
  ⟨by decide, by decide, by decide⟩

/-- C2 (amended): whenever the parser returns a loss percentage it is at
most 100; whenever the loss token parses as a nonnegative number the
resulting percentage is within [0, 100]; and a loss count strictly
exceeding the configured total probes yields exactly 100.  (The original
unconditional lower bound fails for negative loss counts, see the
counterexample.) -/
theorem loss_pct_bounds :
    (∀ tp out q, (parse_rrd_lastupdate tp out).loss_pct = some q → q ≤ 100) ∧
    (∀ tp tok q f, computeLossPct tp tok = some q → parseFloatChars tok = some f →
      0 ≤ f → 0 ≤ q ∧ q ≤ 100) ∧
    (∀ tp tok q f, 0 < tp → computeLossPct tp tok = some q →
      parseFloatChars tok = some f → (tp : ℤ) < truncQ f → q = 100) := by
  refine ⟨fun tp out q h => ?_, fun tp tok q f h hf hf0 =>
    ⟨computeLossPct_nonneg tp tok q f h hf hf0, computeLossPct_le tp tok q h⟩,
    fun tp tok q f htp h hf hover => computeLossPct_overflow tp tok q f htp h hf hover⟩
  rcases parse_loss_shape tp out with hn | ⟨tok, htok⟩
  · rw [hn] at h; cases h
  · rw [htok] at h
    exact computeLossPct_le tp tok q h

unseal Rat.mul Rat.inv Rat.add Rat.sub in
/-- Witness for C2 (amended): loss count 25 against a configured total of
20 is clamped to exactly 100; loss token "0" yields 0 within bounds. -/
theorem loss_pct_bounds_witness :
    ((100 : ℚ) ≤ 100) ∧ ((0 : ℚ) ≤ 0 ∧ (0 : ℚ) ≤ 100) ∧ ((100 : ℚ) = 100) :=
  ⟨loss_pct_bounds.1 20 "uptime p1 loss\n\n100: 1 2.0e-02 25" 100 (by decide),
   loss_pct_bounds.2.1 20 "0".data 0 0 (by decide) (by decide) (by decide),
   loss_pct_bounds.2.2 20 "25".data 100 25 (by decide) (by decide) (by decide) (by decide)⟩

/-- C3: every parse result either carries an error string — and then both
numeric fields are null and no timestamp is attached — or carries no error
field at all and a timestamp is attached. -/
theorem parse_error_xor_timestamp (tp : ℕ) (out : String) :
    ((parse_rrd_lastupdate tp out).error = none ∧
      (parse_rrd_lastupdate tp out).timestamp.isSome = true) ∨
    ((parse_rrd_lastupdate tp out).error.isSome = true ∧
      (parse_rrd_lastupdate tp out).latency_ms = none ∧
      (parse_rrd_lastupdate tp out).loss_pct = none ∧
      (parse_rrd_lastupdate tp out).timestamp = none) := by
  unfold parse_rrd_lastupdate parseCore
  by_cases h1 : (pyLines out.data).length < 2
  · simp [h1, mkErr]
  · simp only [if_neg h1]
    cases h2 : findDataLine (pyLines out.data) with
    | none => simp [mkErr]
    | some dl =>
      by_cases h3 : (splitOnChar ':' dl).length ≠ 2
      · simp [h3, mkErr]
      · simp only [if_neg h3, if_pos (not_not.mp h3)]
        cases h4 : parseIntChars (trimList ((splitOnChar ':' dl).getD 0 [])) with
        | none => simp [mkErr]
        | some ts =>
          split
          · simp [mkErr]
          · by_cases h5 : (pySplitWs (trimList ((splitOnChar ':' dl)[1]?.getD []))).length < 2 <;>
              simp [h5, mkErr]

/-- C4: a target whose canonicalised full path lies outside the canonical
data root (neither a strict descendant of it nor the root itself) is
rejected with the "Invalid path" error Sample, and the external tool is
never invoked. -/
theorem traversal_outside_root_rejected (env : SysEnv) (tp : ℕ)
    (dataDir rrdPath : List Char)
    (hpre : ¬ (env.realpath dataDir ++ ['/']).isPrefixOf
      (env.realpath (osJoin dataDir rrdPath)) = true)
    (hne : env.realpath (osJoin dataDir rrdPath) ≠ env.realpath dataDir) :
    get_target_data_aux env tp dataDir rrdPath = (mkErr "Invalid path", false) := by
  have hb : rejectsPath (env.realpath (osJoin dataDir rrdPath))
      (env.realpath dataDir) = true := by
    unfold rejectsPath
    simp only [Bool.and_eq_true, Bool.not_eq_true', bne_iff_ne, ne_eq]
    exact ⟨Bool.not_eq_true _ ▸ hpre, hne⟩
  unfold get_target_data_aux
  rw [if_pos hb]

/-- Witness for C4: a `..`-laden relative path canonicalising to
"/etc/passwd" is rejected without invoking the tool. -/
theorem traversal_outside_root_rejected_witness :
    get_target_data_aux
      ⟨fun p => if p = "/var/lib/smokeping/../../etc/passwd".data then "/etc/passwd".data else p,
       fun _ => true, fun _ => .timedOut⟩
      20 "/var/lib/smokeping".data "../../etc/passwd".data
      = (mkErr "Invalid path", false) :=
  traversal_outside_root_rejected _ 20 _ _ (by decide) (by decide)

/-- C5: a middle token that is a no-reply sentinel, fails numeric parsing,
or parses to a zero or negative value contributes nothing to the collected
probe values, at any position, and its exclusion raises no error (the
collection is total and simply skips it). -/
theorem bad_middle_tokens_never_contribute (pre post : List (List Char)) (v : List Char)
    (h : isNoReplySentinel v = true ∨ parseFloatChars v = none ∨
      ∃ x, parseFloatChars v = some x ∧ x ≤ 0) :
    extractPings (pre ++ v :: post) = extractPings (pre ++ post) := by
  have hv : parsePing v = none := by
    unfold parsePing
    rcases h with h | h | ⟨x, hx, hx0⟩
    · rw [if_pos h]
    · by_cases hs : isNoReplySentinel v
      · rw [if_pos hs]
      · rw [if_neg hs, h]
    · by_cases hs : isNoReplySentinel v
      · rw [if_pos hs]
      · rw [if_neg hs, hx]
        dsimp only
        rw [if_neg (not_lt.mpr hx0)]
  unfold extractPings
  simp [List.filterMap_append, List.filterMap_cons, hv]

unseal Rat.mul Rat.inv Rat.add Rat.sub in
/-- Witness for C5: dropping a "nan" sentinel between two probe tokens. -/
theorem bad_middle_tokens_never_contribute_witness :
    extractPings (["2.0e-02".data] ++ "nan".data :: ["1.0e-02".data])
      = extractPings (["2.0e-02".data] ++ ["1.0e-02".data]) :=
  bad_middle_tokens_never_contribute ["2.0e-02".data] ["1.0e-02".data] "nan".data
    (Or.inl (by decide))

/-- C6: every fetch outcome is a structured Sample: either the tool ran
successfully and the parser's result is returned verbatim, or the result is
an error Sample whose message belongs to the fixed per-class list; the six
failure-class messages are pairwise distinct; and the result never depends
on the captured stderr text. -/
theorem fetch_error_handling :
    (∀ env tp dataDir rrdPath,
      (∃ out, get_target_data env tp dataDir rrdPath = parse_rrd_lastupdate tp out) ∨
      (∃ m, m ∈ fetchErrorMessages rrdPath ∧
        get_target_data env tp dataDir rrdPath = mkErr m)) ∧
    (∀ rrdPath, (fetchErrorMessages rrdPath).Pairwise (fun a b => a ≠ b)) ∧
    (∀ env₁ env₂ tp dataDir rrdPath,
      env₁.realpath = env₂.realpath → env₁.pathExists = env₂.pathExists →
      (∀ p, scrubStderr (env₁.runTool p) = scrubStderr (env₂.runTool p)) →
      get_target_data_aux env₁ tp dataDir rrdPath
        = get_target_data_aux env₂ tp dataDir rrdPath) := by
  refine ⟨?_, ?_, ?_⟩
  · intro env tp dataDir rrdPath
    unfold get_target_data get_target_data_aux parse_rrd_lastupdate
    dsimp only
    split
    · right; exact ⟨"Invalid path", by simp [fetchErrorMessages], rfl⟩
    · split
      · right; exact ⟨_, by simp [fetchErrorMessages], rfl⟩
      · split
        · split
          · right; exact ⟨"rrdtool error reading file", by simp [fetchErrorMessages], rfl⟩
          · left; exact ⟨_, rfl⟩
        · right; exact ⟨"rrdtool timeout", by simp [fetchErrorMessages], rfl⟩
        · right; exact ⟨"rrdtool not installed", by simp [fetchErrorMessages], rfl⟩
        · right; exact ⟨"Unexpected error reading RRD file", by simp [fetchErrorMessages], rfl⟩
  · intro rrdPath
    have hR : ("RRD file not found: ".data ++ rrdPath).head? = some 'R' := rfl
    refine List.Pairwise.cons ?_ (List.Pairwise.cons ?_ (by decide))
    · intro m hm
      simp only [List.mem_cons, List.not_mem_nil, or_false] at hm
      rcases hm with rfl | rfl | rfl | rfl | rfl
      · exact (notFoundMsg_ne_invalidPath rrdPath).symm
      · decide
      · decide
      · decide
      · decide
    · intro m hm
      simp only [List.mem_cons, List.not_mem_nil, or_false] at hm
      rcases hm with rfl | rfl | rfl | rfl <;>
        exact string_mk_ne_of_head _ _ (by rw [hR]; decide)
  · intro env₁ env₂ tp dataDir rrdPath hreal hex hrun
    unfold get_target_data_aux
    dsimp only
    rw [hreal, hex]
    cases o1 : env₁.runTool (env₂.realpath (osJoin dataDir rrdPath)) <;>
      cases o2 : env₂.runTool (env₂.realpath (osJoin dataDir rrdPath)) <;>
        (have h := hrun (env₂.realpath (osJoin dataDir rrdPath));
         rw [o1, o2] at h)
    all_goals simp_all [scrubStderr]

/-- Witness for C6: stderr-independence applied at a concrete environment
whose tool invocation times out. -/
theorem fetch_error_handling_witness :
    get_target_data_aux ⟨id, fun _ => true, fun _ => .timedOut⟩ 20
        "/var/lib/smokeping".data "external/cloudflare.rrd".data
      = get_target_data_aux ⟨id, fun _ => true, fun _ => .timedOut⟩ 20
        "/var/lib/smokeping".data "external/cloudflare.rrd".data :=
  fetch_error_handling.2.2 _ _ 20 _ _ rfl rfl (fun _ => rfl)

/-- C7: when the data line splits on the colon into exactly two parts but
the first part does not parse as an integer unix timestamp, the parser
returns the "Invalid timestamp" error Sample (both numeric fields null). -/
theorem invalid_timestamp_error (tp : ℕ) (out : String) (dl : List Char)
    (h1 : ¬ (pyLines out.data).length < 2)
    (h2 : findDataLine (pyLines out.data) = some dl)
    (h3 : (splitOnChar ':' dl).length = 2)
    (h4 : parseIntChars (trimList ((splitOnChar ':' dl).getD 0 [])) = none) :
    parse_rrd_lastupdate tp out = mkErr "Invalid timestamp" := by
  unfold parse_rrd_lastupdate parseCore
  rw [if_neg h1, h2]
  dsimp only
  rw [if_neg (by omega : ¬ (splitOnChar ':' dl).length ≠ 2), h4]

/-- Witness for C7: the concrete input from the spec's scenario 3. -/
theorem invalid_timestamp_error_witness :
    parse_rrd_lastupdate 20 "uptime p1 loss\n\nnot_a_number: 123456 1.50e-02 0"
      = mkErr "Invalid timestamp" :=
  invalid_timestamp_error 20 "uptime p1 loss\n\nnot_a_number: 123456 1.50e-02 0"
    "not_a_number: 123456 1.50e-02 0".data
    (by decide) (by decide) (by decide) (by decide)

unseal Rat.mul Rat.inv Rat.add Rat.sub in
/-- C8: the spec's scenario 1 input parses, against the default total of 20
probes, to latency 14.0 and loss 0.0 with a timestamp and no error. -/
theorem scenario_one_parses_to_14_and_0 :
    parse_rrd_lastupdate 20
      "uptime p1 p2 p3 p4 p5 loss\n\n1735840200: 123456 1.23e-02 1.45e-02 1.50e-02 1.35e-02 1.40e-02 0"
      = ⟨some 14, some 0, some 1735840200, none⟩ := by
  decide

/-- C9: the parser is a deterministic pure function of the input text and
the configured probe total: equal inputs give equal results, and the
embedding is a total function with no state. -/
theorem parse_deterministic (tp : ℕ) (s t : String) (h : s = t) :
    parse_rrd_lastupdate tp s = parse_rrd_lastupdate tp t := by
  rw [h]

/-- Witness for C9 at a concrete input. -/
theorem parse_deterministic_witness :
    parse_rrd_lastupdate 20 "uptime p1 loss\n\n100: 1 2.0e-02 0"
      = parse_rrd_lastupdate 20 "uptime p1 loss\n\n100: 1 2.0e-02 0" :=
  parse_deterministic 20 _ _ rfl

/-- C10: a target whose full path canonicalises to exactly the data root
passes the path-validation check (the rejection test is false) and is never
answered with the "Invalid path" error Sample. -/
theorem root_itself_not_rejected (env : SysEnv) (tp : ℕ) (dataDir rrdPath : List Char)
    (h : env.realpath (osJoin dataDir rrdPath) = env.realpath dataDir) :
    rejectsPath (env.realpath (osJoin dataDir rrdPath)) (env.realpath dataDir) = false ∧
    get_target_data env tp dataDir rrdPath ≠ mkErr "Invalid path" := by
  have hb : rejectsPath (env.realpath (osJoin dataDir rrdPath))
      (env.realpath dataDir) = false := by
    rw [h]
    unfold rejectsPath
    simp
  refine ⟨hb, ?_⟩
  unfold get_target_data get_target_data_aux
  simp only [hb, Bool.false_eq_true, if_false]
  split
  · intro he
    injection he with hl hp ht herr
    injection herr with herr
    exact notFoundMsg_ne_invalidPath rrdPath herr
  · split
    · split
      · decide
      · intro he
        have herr := congrArg RRDData.error he
        rcases parseCore_error_cases tp _ with hnone | hmem
        · exact Option.noConfusion (hnone.symm.trans herr)
        · rw [herr] at hmem
          exact absurd hmem (by decide)
    · decide
    · decide
    · decide

/-- Witness for C10: a relative path "subdir/.." canonicalising back to the
data root itself is not rejected. -/
theorem root_itself_not_rejected_witness :
    rejectsPath
      ((⟨fun p => if p = "/var/lib/smokeping/subdir/..".data then "/var/lib/smokeping".data else p,
         fun _ => true, fun _ => .timedOut⟩ : SysEnv).realpath
        (osJoin "/var/lib/smokeping".data "subdir/..".data))
      ((⟨fun p => if p = "/var/lib/smokeping/subdir/..".data then "/var/lib/smokeping".data else p,
         fun _ => true, fun _ => .timedOut⟩ : SysEnv).realpath "/var/lib/smokeping".data) = false ∧
    get_target_data
      ⟨fun p => if p = "/var/lib/smokeping/subdir/..".data then "/var/lib/smokeping".data else p,
       fun _ => true, fun _ => .timedOut⟩
      20 "/var/lib/smokeping".data "subdir/..".data ≠ mkErr "Invalid path" :=
  root_itself_not_rejected _ 20 _ _ (by decide)
